import Mathlib

/-!
Verification of the nyquist_lib playback coordinator (src/lib.rs).

The library keeps a playlist and transport state behind one mutex and runs
two background threads: `manager_thread` (the playback driver loop) and
`receiver_thread` (the command loop).  Here each loop body is embedded as a
pure step function on the `Playlist` state; the external audio engine
(kira) is modelled by an `openStream` parameter and by a `SoundHandle`
record, and every call issued to the engine is recorded in an `EngineCall`
trace.  A Rust `unwrap` panic is modelled as the step returning
`Option.none`.  `f64` values (volume, positions in seconds) carry no
arithmetic in this code, only assignment, so they are modelled as `ℚ`;
`std::time::Duration` is likewise modelled as `ℚ` seconds.
-/

/-- Seconds, modelling `std::time::Duration` and `f64` positions. -/
abbrev Duration : Type := ℚ

/-- `Track` from src/lib.rs: a single audio track identified by its path. -/
structure Track where
  path : String
deriving DecidableEq, Repr

/-- Engine-level playback state of a kira sound handle
(`kira::sound::PlaybackState`); the code only ever compares against
`Playing` and `Paused`. -/
inductive PlaybackState where
  | Playing
  | Pausing
  | Paused
  | Stopping
  | Stopped
deriving DecidableEq, Repr

/-- Model of kira's `StreamingSoundHandle`: the engine's live session for a
loaded stream.  `state` is what `handle.state()` reports, `position` what
`handle.position()` reports, `volume` the engine-side gain. -/
structure SoundHandle where
  state : PlaybackState
  position : Duration
  volume : ℚ
deriving DecidableEq, Repr

/-- `handle.pause(Tween::default())`: the default tween is instantaneous,
so the session state becomes `Paused`. -/
def SoundHandle.pause (h : SoundHandle) : SoundHandle :=
  { h with state := PlaybackState.Paused }

/-- `handle.resume(Tween::default())`. -/
def SoundHandle.resume (h : SoundHandle) : SoundHandle :=
  { h with state := PlaybackState.Playing }

/-- `handle.set_volume(v, Default::default())`. -/
def SoundHandle.set_volume (h : SoundHandle) (v : ℚ) : SoundHandle :=
  { h with volume := v }

/-- One call issued to the external audio engine, recorded so that theorems
can speak about what the code asked the engine to do. -/
inductive EngineCall where
  | play (path : String)
  | pause
  | resume
  | setVolume (v : ℚ)
deriving DecidableEq, Repr

/-- `Message` from src/lib.rs: the kind tag of a command. -/
inductive Message where
  | None
  | PlaylistUpdated
  | PlaybackPause
  | PlaybackResume
  | EffectVolume
deriving DecidableEq, Repr

/-- `MessageValue` from src/lib.rs: the optional payload of a command. -/
structure MessageValue where
  float : Option ℚ
  int : Option Int
  string : Option String
deriving DecidableEq, Repr

/-- `MessageValue::none()`. -/
def MessageValue.none : MessageValue :=
  { float := Option.none, int := Option.none, string := Option.none }

/-- `MessageValue::float(f)`. -/
def MessageValue.float_val (f : ℚ) : MessageValue :=
  { float := some f, int := Option.none, string := Option.none }

/-- `MessageValue::int(i)`. -/
def MessageValue.int_val (i : Option Int) : MessageValue :=
  { float := Option.none, int := i, string := Option.none }

/-- `MessageValue::string(s)`. -/
def MessageValue.string_val (s : Option String) : MessageValue :=
  { float := Option.none, int := Option.none, string := s }

/-- `Playlist` from src/lib.rs: the single shared mutable aggregate. -/
structure Playlist where
  queue : List Track
  playing : Option Track
  paused : Bool
  current_duration : Duration
  current_time : Duration
  current_volume : ℚ
  sound_handle : Option SoundHandle
deriving DecidableEq, Repr

/-- `create_playlist()` from src/lib.rs: the initial state. -/
def create_playlist : Playlist :=
  { queue := []
    playing := Option.none
    paused := false
    current_duration := 0
    current_time := 0
    current_volume := 100
    sound_handle := Option.none }

/-- `Nyquist::add_to_playlist`: push the track onto the queue and set it as
the `playing` selection (unconditionally). -/
def add_to_playlist (st : Playlist) (track : Track) : Playlist :=
  { st with queue := st.queue ++ [track], playing := some track }

/-- `Nyquist::list`: a clone of the queue. -/
def list (st : Playlist) : List Track :=
  st.queue

/-- `Nyquist::get_time`: `(current_duration, current_time)`. -/
def get_time (st : Playlist) : Duration × Duration :=
  (st.current_duration, st.current_time)

/-- `Nyquist::get_vol`. -/
def get_vol (st : Playlist) : ℚ :=
  st.current_volume

/-- `Nyquist::set_vol`: a direct locked write to `current_volume`.  The
trace component records the engine calls issued (there are none). -/
def set_vol (st : Playlist) (vol : ℚ) : Playlist × List EngineCall :=
  ({ st with current_volume := vol }, [])

/-- The message sent on the channel by `Nyquist::pause_playback`. -/
def pause_playback_msg : Message × MessageValue :=
  (Message.PlaybackPause, MessageValue.none)

/-- The message sent on the channel by `Nyquist::resume_playback`. -/
def resume_playback_msg : Message × MessageValue :=
  (Message.PlaybackResume, MessageValue.none)

/-- All sends on the command channel performed by the `Nyquist` facade:
`pause_playback` and `resume_playback` are its only send sites. -/
def facade_sends : List (Message × MessageValue) :=
  [pause_playback_msg, resume_playback_msg]

/-- How many of the three payload fields of a `MessageValue` are populated. -/
def populatedCount (v : MessageValue) : Nat :=
  (if v.float.isSome then 1 else 0) +
    (if v.int.isSome then 1 else 0) +
      (if v.string.isSome then 1 else 0)

/-- One iteration of the loop body of `manager_thread` from src/lib.rs,
executed with the state lock held.  `openStream` models
`StreamingSoundData::from_file` together with `manager.play`: it returns
the stream's duration, or `Option.none` when the file is missing,
unreadable or not valid audio.  The Rust code calls `.unwrap()` on that
result, so failure panics and aborts the driver thread: modelled as the
step returning `Option.none`. -/
def manager_step (openStream : String → Option Duration) (st : Playlist) :
    Option (Playlist × List EngineCall) :=
  match st.sound_handle with
  | Option.none =>
    match st.playing with
    | some playing =>
      match openStream playing.path with
      | some dur =>
        let handle : SoundHandle :=
          { state := PlaybackState.Playing, position := 0, volume := 100 }
        if st.paused then
          some ({ st with current_duration := dur,
                          sound_handle := some handle.pause },
                [EngineCall.play playing.path, EngineCall.pause])
        else
          some ({ st with current_duration := dur,
                          sound_handle := some handle },
                [EngineCall.play playing.path])
      | Option.none => Option.none
    | Option.none => some (st, [])
  | some handle =>
    some ({ st with current_time := handle.position }, [])

/-- One iteration of the loop body of `receiver_thread` from src/lib.rs:
process a single `(kind, value)` command with the state lock held.
`Option.none` models the `value.float.unwrap()` panic. -/
def receiver_step (st : Playlist) (kind : Message) (value : MessageValue) :
    Option (Playlist × List EngineCall) :=
  match kind with
  | Message.PlaybackPause =>
    match st.sound_handle with
    | some handle =>
      if handle.state = PlaybackState.Playing then
        some ({ st with sound_handle := some handle.pause, paused := true },
              [EngineCall.pause])
      else
        some (st, [])
    | Option.none => some (st, [])
  | Message.PlaybackResume =>
    match st.sound_handle with
    | some handle =>
      if handle.state = PlaybackState.Paused then
        some ({ st with sound_handle := some handle.resume, paused := false },
              [EngineCall.resume])
      else
        some (st, [])
    | Option.none => some (st, [])
  | Message.EffectVolume =>
    match st.sound_handle with
    | some handle =>
      match value.float with
      | some v =>
        some ({ st with current_volume := v,
                        sound_handle := some (handle.set_volume v) },
              [EngineCall.setVolume v])
      | Option.none => Option.none
    | Option.none => some (st, [])
  | Message.None => some (st, [])
  | Message.PlaylistUpdated => some (st, [])

/-- A sequence of `add_to_playlist` calls starting from `st`. -/
def enqueue_all (st : Playlist) (ts : List Track) : Playlist :=
  ts.foldl add_to_playlist st

lemma enqueue_all_queue (st : Playlist) (ts : List Track) :
    (enqueue_all st ts).queue = st.queue ++ ts := by
  induction ts generalizing st with
  | nil => simp [enqueue_all]
  | cons t ts ih =>
    simp [enqueue_all, List.foldl_cons, add_to_playlist] at *
    rw [ih]
    simp

/-- C4: starting from the initial state, with no other mutations
interleaved, `list` after a sequence of `add_to_playlist` calls returns
exactly the enqueued tracks in insertion order, and its length equals the
number of calls. -/
theorem list_after_enqueue_all (ts : List Track) :
    list (enqueue_all create_playlist ts) = ts ∧
      (list (enqueue_all create_playlist ts)).length = ts.length := by
  have h : list (enqueue_all create_playlist ts) = ts := by
    simp [list, enqueue_all_queue, create_playlist]
  exact ⟨h, by rw [h]⟩

/-- C5: for every state and track, `add_to_playlist` appends the track to
the end of the queue and unconditionally sets it as the selected track,
also when another track is already selected; all other fields are kept. -/
theorem add_to_playlist_spec (st : Playlist) (t : Track) :
    (add_to_playlist st t).queue = st.queue ++ [t] ∧
      (add_to_playlist st t).playing = some t ∧
      (add_to_playlist st t).paused = st.paused ∧
      (add_to_playlist st t).sound_handle = st.sound_handle := by
  refine ⟨rfl, rfl, rfl, rfl⟩

/-- C10: `set_vol` writes exactly `current_volume`; the queue, selection,
pause flag, timing fields and the session handle are untouched and no call
is issued to the audio engine, so the gain of the actively rendered audio
is unchanged. -/
theorem set_vol_frame (st : Playlist) (v : ℚ) :
    (set_vol st v).1.current_volume = v ∧
      (set_vol st v).1.queue = st.queue ∧
      (set_vol st v).1.playing = st.playing ∧
      (set_vol st v).1.paused = st.paused ∧
      (set_vol st v).1.current_duration = st.current_duration ∧
      (set_vol st v).1.current_time = st.current_time ∧
      (set_vol st v).1.sound_handle = st.sound_handle ∧
      (set_vol st v).2 = [] := by
  refine ⟨rfl, rfl, rfl, rfl, rfl, rfl, rfl, rfl⟩

/-- C2: a `PlaybackPause` command pauses the session and sets `paused`
exactly when a session handle exists in state `Playing`; a
`PlaybackResume` command resumes the session and clears `paused` exactly
when a handle exists in state `Paused`; whenever the guard fails the state
is returned unchanged with no engine call. -/
theorem receiver_pause_resume_guarded (st : Playlist) (v : MessageValue) :
    (∃ stp trp, receiver_step st Message.PlaybackPause v = some (stp, trp) ∧
      ((EngineCall.pause ∈ trp ∧ stp.paused = true) ↔
        (∃ h, st.sound_handle = some h ∧ h.state = PlaybackState.Playing)) ∧
      ((∃ h, st.sound_handle = some h ∧ h.state = PlaybackState.Playing) ∨
        (stp = st ∧ trp = []))) ∧
    (∃ str trr, receiver_step st Message.PlaybackResume v = some (str, trr) ∧
      ((EngineCall.resume ∈ trr ∧ str.paused = false) ↔
        (∃ h, st.sound_handle = some h ∧ h.state = PlaybackState.Paused)) ∧
      ((∃ h, st.sound_handle = some h ∧ h.state = PlaybackState.Paused) ∨
        (str = st ∧ trr = []))) := by
  constructor
  · cases hh : st.sound_handle with
    | none =>
      refine ⟨st, [], ?_, ?_, Or.inr ⟨rfl, rfl⟩⟩
      · simp [receiver_step, hh]
      · constructor
        · rintro ⟨hmem, -⟩
          simp at hmem
        · rintro ⟨h2, hh2, -⟩
          exact Option.noConfusion hh2
    | some h =>
      by_cases hs : h.state = PlaybackState.Playing
      · refine ⟨{ st with sound_handle := some h.pause, paused := true },
          [EngineCall.pause], ?_, ?_, Or.inl ⟨h, rfl, hs⟩⟩
        · simp [receiver_step, hh, hs]
        · exact iff_of_true ⟨List.Mem.head _, rfl⟩ ⟨h, rfl, hs⟩
      · refine ⟨st, [], ?_, ?_, Or.inr ⟨rfl, rfl⟩⟩
        · simp [receiver_step, hh, hs]
        · constructor
          · rintro ⟨hmem, -⟩
            simp at hmem
          · rintro ⟨h2, hh2, hs2⟩
            injection hh2 with e
            subst e
            exact absurd hs2 hs
  · cases hh : st.sound_handle with
    | none =>
      refine ⟨st, [], ?_, ?_, Or.inr ⟨rfl, rfl⟩⟩
      · simp [receiver_step, hh]
      · constructor
        · rintro ⟨hmem, -⟩
          simp at hmem
        · rintro ⟨h2, hh2, -⟩
          exact Option.noConfusion hh2
    | some h =>
      by_cases hs : h.state = PlaybackState.Paused
      · refine ⟨{ st with sound_handle := some h.resume, paused := false },
          [EngineCall.resume], ?_, ?_, Or.inl ⟨h, rfl, hs⟩⟩
        · simp [receiver_step, hh, hs]
        · exact iff_of_true ⟨List.Mem.head _, rfl⟩ ⟨h, rfl, hs⟩
      · refine ⟨st, [], ?_, ?_, Or.inr ⟨rfl, rfl⟩⟩
        · simp [receiver_step, hh, hs]
        · constructor
          · rintro ⟨hmem, -⟩
            simp at hmem
          · rintro ⟨h2, hh2, hs2⟩
            injection hh2 with e
            subst e
            exact absurd hs2 hs

/-- C6: two consecutive `PlaybackPause` commands have the same observable
effect on the state and the session as one: the second is a guarded no-op
(same resulting state, no engine call); likewise for `PlaybackResume`. -/
theorem pause_resume_idempotent (st : Playlist) (v v2 : MessageValue) :
    (∃ st1 tr1, receiver_step st Message.PlaybackPause v = some (st1, tr1) ∧
        receiver_step st1 Message.PlaybackPause v2 = some (st1, [])) ∧
    (∃ st1 tr1, receiver_step st Message.PlaybackResume v = some (st1, tr1) ∧
        receiver_step st1 Message.PlaybackResume v2 = some (st1, [])) := by
  constructor
  · cases hh : st.sound_handle with
    | none =>
      exact ⟨st, [], by simp [receiver_step, hh], by simp [receiver_step, hh]⟩
    | some h =>
      by_cases hs : h.state = PlaybackState.Playing
      · refine ⟨{ st with sound_handle := some h.pause, paused := true },
          [EngineCall.pause], ?_, ?_⟩
        · simp [receiver_step, hh, hs]
        · simp [receiver_step, SoundHandle.pause]
      · exact ⟨st, [], by simp [receiver_step, hh, hs],
          by simp [receiver_step, hh, hs]⟩
  · cases hh : st.sound_handle with
    | none =>
      exact ⟨st, [], by simp [receiver_step, hh], by simp [receiver_step, hh]⟩
    | some h =>
      by_cases hs : h.state = PlaybackState.Paused
      · refine ⟨{ st with sound_handle := some h.resume, paused := false },
          [EngineCall.resume], ?_, ?_⟩
        · simp [receiver_step, hh, hs]
        · simp [receiver_step, SoundHandle.resume]
      · exact ⟨st, [], by simp [receiver_step, hh, hs],
          by simp [receiver_step, hh, hs]⟩

/-- C7 counterexample: in the initial state (no session handle) an
`EffectVolume` command with a missing float does NOT fail loudly — the
command loop silently ignores it (it also applies no default volume),
because `value.float.unwrap()` is only reached when a handle exists. -/
theorem effect_volume_missing_float_counterexample :
    receiver_step create_playlist Message.EffectVolume MessageValue.none =
        some (create_playlist, []) ∧
      receiver_step create_playlist Message.EffectVolume MessageValue.none ≠
        Option.none := by
  refine ⟨rfl, ?_⟩
  intro hcon
  simp [receiver_step, create_playlist, MessageValue.none] at hcon

/-- C7 amended: an `EffectVolume` command whose payload is missing its
float makes the command loop fail loudly (the `unwrap` panics, modelled as
`Option.none`) exactly when a session handle exists; with no session
handle the command is silently ignored and no default volume is applied. -/
theorem effect_volume_missing_float (st : Playlist) (v : MessageValue)
    (hf : v.float = Option.none) :
    (st.sound_handle ≠ Option.none →
        receiver_step st Message.EffectVolume v = Option.none) ∧
      (st.sound_handle = Option.none →
        receiver_step st Message.EffectVolume v = some (st, [])) := by
  constructor
  · intro hs
    cases hh : st.sound_handle with
    | none => exact absurd hh hs
    | some h => simp [receiver_step, hh, hf]
  · intro hs
    simp [receiver_step, hs]

/-- Witness for the C7 amended theorem at a concrete state with a live
session handle. -/
theorem effect_volume_missing_float_witness :
    receiver_step
        { create_playlist with
            sound_handle :=
              some { state := PlaybackState.Playing, position := 0,
                     volume := 100 } }
        Message.EffectVolume MessageValue.none = Option.none :=
  (effect_volume_missing_float _ MessageValue.none rfl).1 (by simp)

/-- C8: when the driver loop starts a session for the selected track while
`paused` is already true, the stored handle is already paused and the
trace shows the pause was commanded right after the play, before the
handle is stored. -/
theorem manager_pauses_new_session (openStream : String → Option Duration)
    (st : Playlist) (t : Track) (dur : Duration)
    (hh : st.sound_handle = Option.none) (hp : st.playing = some t)
    (ho : openStream t.path = some dur) (hpause : st.paused = true) :
    manager_step openStream st =
      some ({ st with current_duration := dur,
                      sound_handle :=
                        some { state := PlaybackState.Paused, position := 0,
                               volume := 100 } },
            [EngineCall.play t.path, EngineCall.pause]) := by
  simp [manager_step, hh, hp, ho, hpause, SoundHandle.pause]

/-- Witness for C8 at a concrete pre-paused state. -/
theorem manager_pauses_new_session_witness :
    manager_step (fun _ => some 3)
        { create_playlist with playing := some { path := "a.mp3" },
                               paused := true } =
      some ({ create_playlist with
                playing := some { path := "a.mp3" }, paused := true,
                current_duration := 3,
                sound_handle :=
                  some { state := PlaybackState.Paused, position := 0,
                         volume := 100 } },
            [EngineCall.play "a.mp3", EngineCall.pause]) := by
  have h := manager_pauses_new_session (fun _ => some 3)
    { create_playlist with playing := some { path := "a.mp3" },
                           paused := true }
    { path := "a.mp3" } 3 rfl rfl rfl rfl
  exact h

/-- C9 counterexample: the command actually sent by `pause_playback`
carries `MessageValue::none()`, in which zero of the three payload fields
are populated — not exactly one. -/
theorem command_payload_not_exactly_one :
    populatedCount pause_playback_msg.2 = 0 ∧
      ¬ populatedCount pause_playback_msg.2 = 1 := by
  exact ⟨rfl, by decide⟩

/-- C9 amended: every command sent over the command channel (the facade's
only send sites are `pause_playback` and `resume_playback`) carries a
payload with no populated field — in particular at most one field is ever
populated. -/
theorem facade_sends_payload_empty (m : Message × MessageValue)
    (hm : m ∈ facade_sends) : populatedCount m.2 = 0 := by
  simp [facade_sends] at hm
  rcases hm with h | h
  · rw [h]
    rfl
  · rw [h]
    rfl

/-- Witness for the C9 amended theorem at the pause command. -/
theorem facade_sends_payload_empty_witness :
    populatedCount pause_playback_msg.2 = 0 :=
  facade_sends_payload_empty pause_playback_msg (by simp [facade_sends])

/-- Engine model for the C1 failing input: the file "/nonexistent" cannot
be opened, so `StreamingSoundData::from_file` fails. -/
def failing_open : String → Option Duration :=
  fun _ => Option.none

/-- C1: evaluating the driver loop at the failing input.  After
`add_to_playlist` of the track "/nonexistent", the very next driver
iteration hits `.unwrap()` on the failed open and panics — the driver
loop aborts (`Option.none`), contradicting the claim that it must not. -/
theorem manager_aborts_on_missing_file :
    manager_step failing_open
        (add_to_playlist create_playlist { path := "/nonexistent" }) =
      Option.none := rfl
